import Mathlib

/-!
# Verification of the mesaic signal-processing and query-answering core

A shallow embedding, over `ℚ`, of the Python sources
`src/python/data/signal_processor.py`, `src/python/ai/query_engine.py` and
`src/python/ai/query_processor.py`.  Floating-point samples are modelled as
rational numbers; a Python `dict` of signals is modelled as an association
list; a Python function that can raise is modelled with `Except`/`Option`.
-/

/-- A dataset's `data` dictionary: signal name to sample list
(`signals_data` in `signal_processor.py`). -/
abbrev SignalsData := List (String × List ℚ)

/-- Dictionary lookup `signals_data[name]` guarded by `name in signals_data`. -/
def lookupSignal (signalsData : SignalsData) (name : String) : Option (List ℚ) :=
  (signalsData.find? (fun p => p.1 == name)).map Prod.snd

/-- The division guard threshold `1e-10` of `SignalProcessor.divide_signals`. -/
def divEps : ℚ := 1 / 10000000000

/-- `SignalProcessor.add_signals`: both inputs truncated to the shorter
length, then element-wise sum.  Only the `data` payload of the result
dictionary is modelled. -/
def add_signals (signalsData : SignalsData) (signal1 signal2 : Option String) :
    Except String (List ℚ) :=
  match signal1, signal2 with
  | some s1, some s2 =>
    match lookupSignal signalsData s1, lookupSignal signalsData s2 with
    | some data1, some data2 =>
      let minLength := min data1.length data2.length
      .ok (List.zipWith (· + ·) (data1.take minLength) (data2.take minLength))
    | none, _ => .error ("Signal not found: " ++ s1)
    | _, none => .error ("Signal not found: " ++ s2)
  | _, _ => .error "Must specify two signals to add"

/-- `SignalProcessor.subtract_signals`. -/
def subtract_signals (signalsData : SignalsData) (signal1 signal2 : Option String) :
    Except String (List ℚ) :=
  match signal1, signal2 with
  | some s1, some s2 =>
    match lookupSignal signalsData s1, lookupSignal signalsData s2 with
    | some data1, some data2 =>
      let minLength := min data1.length data2.length
      .ok (List.zipWith (· - ·) (data1.take minLength) (data2.take minLength))
    | none, _ => .error ("Signal not found: " ++ s1)
    | _, none => .error ("Signal not found: " ++ s2)
  | _, _ => .error "Must specify two signals to subtract"

/-- `SignalProcessor.multiply_signals`. -/
def multiply_signals (signalsData : SignalsData) (signal1 signal2 : Option String) :
    Except String (List ℚ) :=
  match signal1, signal2 with
  | some s1, some s2 =>
    match lookupSignal signalsData s1, lookupSignal signalsData s2 with
    | some data1, some data2 =>
      let minLength := min data1.length data2.length
      .ok (List.zipWith (· * ·) (data1.take minLength) (data2.take minLength))
    | none, _ => .error ("Signal not found: " ++ s1)
    | _, none => .error ("Signal not found: " ++ s2)
  | _, _ => .error "Must specify two signals to multiply"

/-- `SignalProcessor.divide_signals`: truncation to the shorter length, then
`np.where(np.abs(data2) < 1e-10, 1e-10, data2)` on the denominator, then
element-wise division. -/
def divide_signals (signalsData : SignalsData) (signal1 signal2 : Option String) :
    Except String (List ℚ) :=
  match signal1, signal2 with
  | some s1, some s2 =>
    match lookupSignal signalsData s1, lookupSignal signalsData s2 with
    | some data1, some data2 =>
      let minLength := min data1.length data2.length
      let num := data1.take minLength
      let den := (data2.take minLength).map (fun x => if |x| < divEps then divEps else x)
      .ok (List.zipWith (· / ·) num den)
    | none, _ => .error ("Signal not found: " ++ s1)
    | _, none => .error ("Signal not found: " ++ s2)
  | _, _ => .error "Must specify two signals to divide"

/-- `SignalProcessor.absolute_value`. -/
def absolute_value (signalsData : SignalsData) (signal : Option String) :
    Except String (List ℚ) :=
  match signal with
  | none => .error "Must specify a signal"
  | some name =>
    match lookupSignal signalsData name with
    | none => .error ("Signal not found: " ++ name)
    | some data => .ok (data.map (fun x => |x|))

/-- `SignalProcessor.scale_signal`: `np.multiply(data, factor)` with the
source's default `factor=1.0`. -/
def scale_signal (signalsData : SignalsData) (signal : Option String)
    (factor : ℚ := 1) : Except String (List ℚ) :=
  match signal with
  | none => .error "Must specify a signal"
  | some name =>
    match lookupSignal signalsData name with
    | none => .error ("Signal not found: " ++ name)
    | some data => .ok (data.map (fun x => x * factor))

/-- `SignalProcessor.compute_statistics`: the `data` payload is the original
signal unchanged (the scalar statistics live in metadata, which is not
modelled here). -/
def compute_statistics (signalsData : SignalsData) (signal : Option String) :
    Except String (List ℚ) :=
  match signal with
  | none => .error "Must specify a signal"
  | some name =>
    match lookupSignal signalsData name with
    | none => .error ("Signal not found: " ++ name)
    | some data => .ok data

/-- `np.gradient` on a 1-D array with unit spacing and length ≥ 2:
one-sided differences at the two ends, central differences inside. -/
def npGradientTotal (data : List ℚ) : List ℚ :=
  (List.range data.length).map (fun i =>
    if i = 0 then data.getD 1 0 - data.getD 0 0
    else if i = data.length - 1 then
      data.getD (data.length - 1) 0 - data.getD (data.length - 2) 0
    else (data.getD (i + 1) 0 - data.getD (i - 1) 0) / 2)

/-- `np.gradient`, which raises for arrays of fewer than two samples
(modelled as `none`). -/
def npGradient (data : List ℚ) : Option (List ℚ) :=
  if data.length < 2 then none else some (npGradientTotal data)

/-- The message `np.gradient` raises on an undersized array. -/
def gradientSizeError : String :=
  "Shape of array too small to calculate a numerical gradient"

/-- `SignalProcessor.compute_derivative`: `np.gradient(data)` for `order=1`,
`np.gradient(np.gradient(data))` for `order=2`, error otherwise. -/
def compute_derivative (signalsData : SignalsData) (signal : Option String)
    (order : ℤ := 1) : Except String (List ℚ) :=
  match signal with
  | none => .error "Must specify a signal"
  | some name =>
    match lookupSignal signalsData name with
    | none => .error ("Signal not found: " ++ name)
    | some data =>
      if order = 1 then
        match npGradient data with
        | some g => .ok g
        | none => .error gradientSizeError
      else if order = 2 then
        match npGradient data with
        | some g =>
          match npGradient g with
          | some g2 => .ok g2
          | none => .error gradientSizeError
        | none => .error gradientSizeError
      else .error ("Unsupported derivative order: " ++ toString order)

/-- A `cutoff_freq` parameter value: a single number or a list of numbers
(string-encoded numbers, which `filter_signal` converts with `float`, are
not modelled). -/
inductive CutoffFreq where
  | num (q : ℚ)
  | numList (qs : List ℚ)
deriving DecidableEq

/-- The filter types accepted by `SignalProcessor.filter_signal`. -/
def validFilterTypes : List String := ["lowpass", "highpass", "bandpass", "bandstop"]

/-- `SignalProcessor.filter_signal`, modelled through its parameter
validation and cutoff normalization: the returned list is the
`normal_cutoff` (cutoff divided by the Nyquist frequency 0.5) handed to the
Butterworth design; the floating-point `butter`/`filtfilt` numerics
themselves are outside the model. -/
def filter_signal (signalsData : SignalsData) (signal : Option String)
    (filter_type : String := "lowpass") (cutoff_freq : CutoffFreq := .num (1/10))
    (_order : ℤ := 4) : Except String (List ℚ) :=
  match signal with
  | none => .error "Must specify a signal to filter"
  | some name =>
    match lookupSignal signalsData name with
    | none => .error ("Signal not found: " ++ name)
    | some _data =>
      if validFilterTypes.contains filter_type then
        if filter_type = "bandpass" ∨ filter_type = "bandstop" then
          match cutoff_freq with
          | .numList qs =>
            if qs.length = 2 then .ok (qs.map (fun f => f / (1/2)))
            else .error ("For " ++ filter_type ++ " filter, cutoff_freq must be a tuple (low, high)")
          | .num _ =>
            .error ("For " ++ filter_type ++ " filter, cutoff_freq must be a tuple (low, high)")
        else
          match cutoff_freq with
          | .num q => .ok [q / (1/2)]
          | .numList qs => .ok (qs.map (fun f => f / (1/2)))
      else .error ("Invalid filter type: " ++ filter_type)

/-- The parameters dictionary of a `SignalOperation`
(`query_engine.SignalOperation.parameters`); only the keys the validator and
the modelled operations read are carried. -/
structure OpParams where
  order : Option ℤ
  filter_type : Option String
  cutoff_freq : Option CutoffFreq
  factor : Option ℚ
deriving DecidableEq

/-- `query_engine.SignalOperation` (the `output_name` field is not read by
the validator or the executor and is omitted). -/
structure SignalOperation where
  operation : String
  signals : List String
  parameters : OpParams
deriving DecidableEq

/-- The `valid_operations` list of `AIQueryEngine._validate_operations`. -/
def validOperations : List String :=
  ["add", "subtract", "multiply", "divide",
   "abs", "scale", "derivative", "filter", "fft", "stats"]

/-- The body of `AIQueryEngine._validate_operations` for a single operation:
fail-fast checks (operation known, signals available, arity, parameter
domains), mutating the request only to repair a malformed bandpass/bandstop
`cutoff_freq` to `[0.1, 0.4]`.  Returns the (possibly repaired) operation. -/
def validate_operation (op : SignalOperation) (availableSignals : List String) :
    Except String SignalOperation :=
  if validOperations.contains op.operation then
    match op.signals.find? (fun s => !(availableSignals.contains s)) with
    | some s => .error ("Signal not found: " ++ s)
    | none =>
      if op.operation ∈ ["add", "subtract", "multiply", "divide"] ∧ op.signals.length ≠ 2 then
        .error (op.operation ++ " operation requires exactly 2 signals")
      else if op.operation ∈ ["abs", "scale", "derivative", "filter", "fft", "stats"] ∧
          op.signals.length ≠ 1 then
        .error (op.operation ++ " operation requires exactly 1 signal")
      else if op.operation = "derivative" then
        let order := op.parameters.order.getD 1
        if order ≠ 1 ∧ order ≠ 2 then
          .error ("Derivative order must be 1 or 2, got " ++ toString order)
        else .ok op
      else if op.operation = "filter" then
        let ft := op.parameters.filter_type.getD "lowpass"
        if validFilterTypes.contains ft then
          if ft = "bandpass" ∨ ft = "bandstop" then
            match op.parameters.cutoff_freq with
            | some (.numList qs) =>
              if qs.length = 2 then .ok op
              else .ok { op with parameters :=
                { op.parameters with cutoff_freq := some (.numList [1/10, 2/5]) } }
            | _ => .ok { op with parameters :=
                { op.parameters with cutoff_freq := some (.numList [1/10, 2/5]) } }
          else .ok op
        else .error ("Invalid filter type: " ++ ft)
      else .ok op
  else .error ("Invalid operation type: " ++ op.operation)

/-- `SignalProcessor.execute_operation` dispatch, with the parameter mapping
of the server's signal handler (`signal1`/`signal2` from the first two listed
signals, `signal` from the first).  `fft` is not modelled (frequency-domain
numerics are outside the rational model). -/
def executeOperation (op : SignalOperation) (signalsData : SignalsData) :
    Except String (List ℚ) :=
  if op.operation = "add" then add_signals signalsData op.signals[0]? op.signals[1]?
  else if op.operation = "subtract" then subtract_signals signalsData op.signals[0]? op.signals[1]?
  else if op.operation = "multiply" then multiply_signals signalsData op.signals[0]? op.signals[1]?
  else if op.operation = "divide" then divide_signals signalsData op.signals[0]? op.signals[1]?
  else if op.operation = "abs" then absolute_value signalsData op.signals[0]?
  else if op.operation = "scale" then
    scale_signal signalsData op.signals[0]? (op.parameters.factor.getD 1)
  else if op.operation = "derivative" then
    compute_derivative signalsData op.signals[0]? (op.parameters.order.getD 1)
  else if op.operation = "filter" then
    filter_signal signalsData op.signals[0]? (op.parameters.filter_type.getD "lowpass")
      (op.parameters.cutoff_freq.getD (.num (1/10))) (op.parameters.order.getD 4)
  else if op.operation = "stats" then compute_statistics signalsData op.signals[0]?
  else .error ("Unknown operation: " ++ op.operation)

/-- Whether a `cutoff_freq` parameter value is a 2-element list (the shape
`_validate_operations` accepts unrepaired for bandpass/bandstop). -/
def isPairCutoff : Option CutoffFreq → Bool
  | some (.numList qs) => qs.length == 2
  | _ => false

/-- The validation-plus-execution pipeline: `_validate_operations` (which may
repair parameters) followed by `execute_operation` on the validated request. -/
def validateThenExecute (op : SignalOperation) (availableSignals : List String)
    (signalsData : SignalsData) : Except String (List ℚ) :=
  (validate_operation op availableSignals).bind (fun o => executeOperation o signalsData)

/-- Python's `str.lower()` (character-wise lowercasing). -/
def strToLower (s : String) : String :=
  String.mk (s.toList.map Char.toLower)

/-- `pat` occurs as a contiguous run inside `cs`. -/
def listContainsSub (cs pat : List Char) : Bool :=
  if pat.isPrefixOf cs then true
  else
    match cs with
    | [] => false
    | _ :: rest => listContainsSub rest pat

/-- Python's `pat in s` substring test. -/
def strContains (s pat : String) : Bool :=
  listContainsSub s.toList pat.toList

/-- The `QueryProcessor.keywords` table, in declaration (= iteration) order. -/
def keywordTable : List (String × List String) :=
  [("max", ["maximum", "max", "highest", "peak", "largest"]),
   ("min", ["minimum", "min", "lowest", "smallest"]),
   ("avg", ["average", "mean", "typical"]),
   ("correlation", ["correlation", "relationship", "connection", "related"]),
   ("anomaly", ["anomaly", "anomalies", "unusual", "abnormal", "outlier"]),
   ("summary", ["summary", "overview", "describe"]),
   ("cursor", ["cursor", "position", "marker", "point"]),
   ("compare", ["compare", "comparison", "difference", "diff", "delta", "change"])]

/-- The `QueryProcessor.signal_mappings` alias table. -/
def signalMappings : List (String × List String) :=
  [("rpm", ["rpm", "engineRPM", "engine rpm", "revolutions"]),
   ("speed", ["speed", "vehicleSpeed", "vehicle speed"]),
   ("throttle", ["throttle", "throttlePosition", "throttle position"]),
   ("temp", ["temp", "temperature", "engineTemp", "engine temperature"]),
   ("fuel", ["fuel", "fuelConsumption", "fuel consumption"]),
   ("battery", ["battery", "batteryVoltage", "battery voltage"]),
   ("ambient", ["ambient", "ambientTemp", "ambient temperature"]),
   ("oil", ["oil", "oilPressure", "oil pressure"])]

/-- `QueryProcessor._is_cursor_query`. -/
def isCursorQuery (query : String) : Bool :=
  ["cursor", "position", "marker", "point"].any (fun k => strContains query k)

/-- `QueryProcessor._is_comparison_query`. -/
def isComparisonQuery (query : String) : Bool :=
  ["compare", "comparison", "difference", "diff", "delta", "change"].any
    (fun k => strContains query k)

/-- `QueryProcessor._determine_query_type`: first table entry with a keyword
occurring in the query wins. -/
def determineQueryType (query : String) : String :=
  match keywordTable.find? (fun e => e.2.any (fun k => strContains query k)) with
  | some e => e.1
  | none => "unknown"

/-- A successful match of the time regex
`at\s+(\d+)(\.\d+)?(?:\s*)(ms|s|seconds|milliseconds)?`:
group 1 (integer digits), group 2 (fractional digits, without the dot),
group 3 (the unit token). -/
structure TimeMatch where
  intPart : List Char
  fracPart : Option (List Char)
  unit : Option String
deriving DecidableEq

/-- The ordered unit alternation `ms|s|seconds|milliseconds` tried at one
position (first alternative that matches wins, as in a regex). -/
def matchUnit (cs : List Char) : Option String :=
  if ['m', 's'].isPrefixOf cs then some "ms"
  else if ['s'].isPrefixOf cs then some "s"
  else if ['s', 'e', 'c', 'o', 'n', 'd', 's'].isPrefixOf cs then some "seconds"
  else if ['m', 'i', 'l', 'l', 'i', 's', 'e', 'c', 'o', 'n', 'd', 's'].isPrefixOf cs
    then some "milliseconds"
  else none

/-- Attempt to match the time regex at the start of `cs`. -/
def matchTimeExprAt (cs : List Char) : Option TimeMatch :=
  match cs with
  | 'a' :: 't' :: rest =>
    let sp := rest.takeWhile Char.isWhitespace
    let rest1 := rest.dropWhile Char.isWhitespace
    if sp.isEmpty then none
    else
      let ds := rest1.takeWhile Char.isDigit
      let rest2 := rest1.dropWhile Char.isDigit
      if ds.isEmpty then none
      else
        let fracAndRest : Option (List Char) × List Char :=
          match rest2 with
          | '.' :: r =>
            let fd := r.takeWhile Char.isDigit
            if fd.isEmpty then (none, rest2) else (some fd, r.dropWhile Char.isDigit)
          | _ => (none, rest2)
        let rest4 := fracAndRest.2.dropWhile Char.isWhitespace
        some { intPart := ds, fracPart := fracAndRest.1, unit := matchUnit rest4 }
  | _ => none

/-- `re.search` of the time regex: the leftmost start position where the
pattern matches. -/
def timeRegexSearch : List Char → Option TimeMatch
  | [] => none
  | c :: rest =>
    match matchTimeExprAt (c :: rest) with
    | some m => some m
    | none => timeRegexSearch rest

/-- Decimal digits to a natural number. -/
def digitsToNat (ds : List Char) : ℕ :=
  ds.foldl (fun n c => 10 * n + (c.toNat - 48)) 0

/-- `float(match.group(1) + (match.group(2) or ''))`: the requested time in
its stated unit. -/
def timeValue (m : TimeMatch) : ℚ :=
  (digitsToNat m.intPart : ℚ) +
    (match m.fracPart with
     | some fd => (digitsToNat fd : ℚ) / (10 : ℚ) ^ fd.length
     | none => 0)

/-- The requested time converted to seconds (`ms`/`milliseconds` divide by
1000; the unit defaults to `ms` when absent). -/
def timeSeconds (m : TimeMatch) : ℚ :=
  let unit := m.unit.getD "ms"
  if unit = "ms" ∨ unit = "milliseconds" then timeValue m / 1000 else timeValue m

/-- The scan loop of `QueryProcessor._find_closest_time_index`: `i` is the
index of the head of the remaining list, `bestIdx`/`bestDiff` the current
minimum; the update fires only on a strictly smaller difference, so the
first minimum encountered is kept. -/
def findClosestAux (target : ℚ) : List ℚ → ℕ → ℕ → ℚ → ℕ
  | [], _, bestIdx, _ => bestIdx
  | t :: rest, i, bestIdx, bestDiff =>
    if |t - target| < bestDiff then findClosestAux target rest (i + 1) i |t - target|
    else findClosestAux target rest (i + 1) bestIdx bestDiff

/-- `QueryProcessor._find_closest_time_index`: `-1` for an empty time axis,
otherwise the linear-scan nearest index. -/
def find_closest_time_index (timeArray : List ℚ) (target : ℚ) : ℤ :=
  match timeArray with
  | [] => -1
  | t0 :: rest => (findClosestAux target rest 1 0 |t0 - target| : ℤ)

/-- The dataset as seen by `QueryProcessor`: the `data` dictionary (signal
name to samples, including `time`) and the `signals` name list used by the
cursor handlers. -/
structure Dataset where
  data : SignalsData
  signals : List String
deriving DecidableEq

/-- The visualization context (`primaryCursor`/`diffCursor` carry only their
`x` coordinate, which is all the handlers read). -/
structure QueryContext where
  primaryCursor : Option ℚ
  diffCursor : Option ℚ
  selectedSignals : List String
deriving DecidableEq

/-- `QueryProcessor._extract_signals`, one `(key, variations)` entry: for
each variation mentioned in the query, append the first available signal
whose lowercased name is one of the entry's variations or contains one of
them, skipping `time` and signals already matched. -/
def extractStep (query : String) (available : List String)
    (matched : List String) (entry : String × List String) : List String :=
  entry.2.foldl (fun acc v =>
    if strContains query v then
      match available.find? (fun s =>
          (entry.2.contains (strToLower s) || entry.2.any (fun w => strContains (strToLower s) w)) &&
          !(acc.contains s) && s != "time") with
      | some s => acc ++ [s]
      | none => acc
    else acc) matched

/-- `QueryProcessor._extract_signals`: alias-table scan; if nothing matched
and signals exist, every non-`time` signal is the target set. -/
def extractSignals (query : String) (d : Dataset) : List String :=
  let available := d.data.map Prod.fst
  let matched := signalMappings.foldl (extractStep query available) []
  if matched.isEmpty ∧ ¬available.isEmpty then available.filter (fun s => s ≠ "time")
  else matched

/-- Mean of a sample list (`sum(xs) / len(xs)`; the empty list gives `0/0 = 0`
in `ℚ` where Python would raise, which no modelled claim exercises). -/
def meanQ (l : List ℚ) : ℚ := l.sum / l.length

/-- Samples centered on their mean. -/
def centered (l : List ℚ) : List ℚ := l.map (fun x => x - meanQ l)

/-- Dot product of two sample lists. -/
def dotQ (a b : List ℚ) : ℚ := (List.zipWith (· * ·) a b).sum

/-- Numerator of the Pearson coefficient `np.corrcoef(x, y)[0, 1]`:
`Σ (xᵢ - x̄)(yᵢ - ȳ)` (the `1/(n-1)` factors of covariance cancel between
numerator and denominator). -/
def pearsonNum (x y : List ℚ) : ℚ := dotQ (centered x) (centered y)

/-- Square of the Pearson denominator: `Σ (xᵢ - x̄)² · Σ (yᵢ - ȳ)²`.
The coefficient itself is `pearsonNum / √pearsonDenSq`. -/
def pearsonDenSq (x y : List ℚ) : ℚ :=
  dotQ (centered x) (centered x) * dotQ (centered y) (centered y)

/-- The comparison `correlation > c` of `_process_correlation_query`,
decided in exact arithmetic: with `r = num / √densq` and `densq > 0`,
`r > c ↔ (0 < num ∧ c² · densq < num²)` for `c ≥ 0`, and
`r > c ↔ (0 ≤ num ∨ num² < c² · densq)` for `c < 0`. -/
def corrGT (num densq c : ℚ) : Bool :=
  if 0 ≤ c then decide (0 < num ∧ c ^ 2 * densq < num ^ 2)
  else decide (0 ≤ num ∨ num ^ 2 < c ^ 2 * densq)

/-- The seven-band interpretation chain of `_process_correlation_query`
applied to the Pearson coefficient of `x` and `y` (thresholds 0.8, 0.5, 0.2,
−0.2, −0.5, −0.8, strict `>` as in the source). -/
def correlationStrength (x y : List ℚ) : String :=
  let num := pearsonNum x y
  let densq := pearsonDenSq x y
  if corrGT num densq (4/5) then "strong positive"
  else if corrGT num densq (1/2) then "moderate positive"
  else if corrGT num densq (1/5) then "weak positive"
  else if corrGT num densq (-(1/5)) then "negligible"
  else if corrGT num densq (-(1/2)) then "weak negative"
  else if corrGT num densq (-(4/5)) then "moderate negative"
  else "strong negative"

/-- One per-signal record of the cursor comparison answer. -/
structure CompEntry where
  signal : String
  primaryVal : ℚ
  diffVal : ℚ
  delta : ℚ
  percentChange : ℚ
  rate : ℚ
deriving DecidableEq

/-- The distinct answers `QueryProcessor` can produce.  Each constructor is
one answer template of the source, carrying the computed data that the
formatted text interpolates (fixed message texts and the
confidence/processing-time metadata are not modelled). -/
inductive Answer where
  | noCursorActive
  | cursorNoTimeData
  | cursorValues (cursorType : String) (x : ℚ) (values : List (String × ℚ))
  | bothCursorsNeeded
  | comparisonNoTimeData
  | comparisonResult (timeDiff : ℚ) (entries : List CompEntry)
  | timeNoTimeData
  | timePointNotFound
  | timeNoSignalData
  | timeValuesAll (actualTime : ℚ) (values : List (String × ℚ))
  | timeValueSingle (signal : String) (value : ℚ) (actualTime : ℚ)
  | timeSignalNotFound (signal : String)
  | notSureWhichSignal
  | signalsNotFound
  | maxAnswer (results : List (String × ℚ))
  | minAnswer (results : List (String × ℚ))
  | avgAnswer (results : List (String × ℚ))
  | needTwoSignalsForCorrelation
  | correlationAnswer (strength : String) (signal1 signal2 : String)
  | correlationSignalsMissing
  | noAnomalies
  | anomalyAnswer (count : ℕ)
  | noSignalsToSummarize
  | summaryAnswer (stats : List (String × ℚ × ℚ × ℚ))
  | genericFallback
deriving DecidableEq

/-- Whether an answer is a computed cursor-to-cursor comparison. -/
def isComparisonResultAnswer : Answer → Bool
  | .comparisonResult _ _ => true
  | _ => false

/-- Python's `max(xs)` (`0` for the empty list, which Python would reject;
no modelled claim exercises it). -/
def listMaxQ (l : List ℚ) : ℚ := l.foldl max (l.headD 0)

/-- Python's `min(xs)`. -/
def listMinQ (l : List ℚ) : ℚ := l.foldl min (l.headD 0)

/-- Population variance `Σ (xᵢ - x̄)² / n`; `np.std` is its square root, and
the anomaly threshold test is carried out on squares to stay in `ℚ`. -/
def varQ (l : List ℚ) : ℚ := ((centered l).map (fun x => x ^ 2)).sum / l.length

/-- `QueryProcessor._process_max_query` (answer payload only). -/
def processMaxQuery (d : Dataset) (signals : List String) : Answer :=
  if signals.isEmpty then .notSureWhichSignal
  else
    let results := signals.filterMap (fun s =>
      (lookupSignal d.data s).map (fun sd => (s, listMaxQ sd)))
    if results.isEmpty then .signalsNotFound else .maxAnswer results

/-- `QueryProcessor._process_min_query`. -/
def processMinQuery (d : Dataset) (signals : List String) : Answer :=
  if signals.isEmpty then .notSureWhichSignal
  else
    let results := signals.filterMap (fun s =>
      (lookupSignal d.data s).map (fun sd => (s, listMinQ sd)))
    if results.isEmpty then .signalsNotFound else .minAnswer results

/-- `QueryProcessor._process_avg_query`. -/
def processAvgQuery (d : Dataset) (signals : List String) : Answer :=
  if signals.isEmpty then .notSureWhichSignal
  else
    let results := signals.filterMap (fun s =>
      (lookupSignal d.data s).map (fun sd => (s, meanQ sd)))
    if results.isEmpty then .signalsNotFound else .avgAnswer results

/-- `QueryProcessor._process_correlation_query`: needs at least two matched
signals, correlates the first two, and phrases the bucketed strength. -/
def processCorrelationQuery (d : Dataset) (signals : List String) : Answer :=
  match signals with
  | s1 :: s2 :: _ =>
    match lookupSignal d.data s1, lookupSignal d.data s2 with
    | some d1, some d2 => .correlationAnswer (correlationStrength d1 d2) s1 s2
    | _, _ => .correlationSignalsMissing
  | _ => .needTwoSignalsForCorrelation

/-- `QueryProcessor._process_anomaly_query`: count of samples more than
three standard deviations from the mean (`|v - mean| > 3σ`, tested as
`(v - mean)² > 9·σ²`); the per-anomaly listing and sorting are not modelled. -/
def processAnomalyQuery (d : Dataset) (signals : List String) : Answer :=
  let toCheck := if ¬signals.isEmpty then signals
    else (d.data.map Prod.fst).filter (fun s => s ≠ "time")
  let count := (toCheck.map (fun s =>
    match lookupSignal d.data s with
    | some sd => (sd.filter (fun v => 9 * varQ sd < (v - meanQ sd) ^ 2)).length
    | none => 0)).sum
  if count = 0 then .noAnomalies else .anomalyAnswer count

/-- `QueryProcessor._process_summary_query` (per-signal min/max/avg payload;
std and the duration/sample-rate headline are not modelled). -/
def processSummaryQuery (d : Dataset) : Answer :=
  let signals := (d.data.map Prod.fst).filter (fun s => s ≠ "time")
  if signals.isEmpty then .noSignalsToSummarize
  else .summaryAnswer (signals.filterMap (fun s =>
    (lookupSignal d.data s).map (fun sd => (s, listMinQ sd, listMaxQ sd, meanQ sd))))

/-- `QueryProcessor._process_cursor_query`: primary cursor preferred,
nearest time index by linear scan, values of the selected (or all non-time)
signals at that index. -/
def processCursorQuery (d : Dataset) (ctx : QueryContext) : Answer :=
  if ctx.primaryCursor.isNone ∧ ctx.diffCursor.isNone then .noCursorActive
  else
    let cursorX := (ctx.primaryCursor.orElse (fun _ => ctx.diffCursor)).getD 0
    let cursorType := if ctx.primaryCursor.isSome then "primary" else "diff"
    match lookupSignal d.data "time" with
    | none => .cursorNoTimeData
    | some ts =>
      if ts.isEmpty then .cursorNoTimeData
      else
        let idx := (find_closest_time_index ts cursorX).toNat
        let selected := if ¬ctx.selectedSignals.isEmpty then ctx.selectedSignals
          else d.signals.filter (fun s => s ≠ "time")
        let values := selected.filterMap (fun s =>
          (lookupSignal d.data s).bind (fun sd =>
            if ¬sd.isEmpty ∧ idx < sd.length then some (s, sd.getD idx 0) else none))
        .cursorValues cursorType cursorX values

/-- `QueryProcessor._process_comparison_query`.  The per-signal percent
change `diff/primary_val*100` is an unguarded Python float division: a zero
value at the primary cursor raises `ZeroDivisionError`, modelled as `none`
(the rate of change, by contrast, is guarded by `if time_diff != 0`). -/
def processComparisonQuery (d : Dataset) (ctx : QueryContext) : Option Answer :=
  match ctx.primaryCursor, ctx.diffCursor with
  | some primaryX, some diffX =>
    match lookupSignal d.data "time" with
    | none => some .comparisonNoTimeData
    | some ts =>
      if ts.isEmpty then some .comparisonNoTimeData
      else
        let primaryIdx := (find_closest_time_index ts primaryX).toNat
        let diffIdx := (find_closest_time_index ts diffX).toNat
        let selected := if ¬ctx.selectedSignals.isEmpty then ctx.selectedSignals
          else d.signals.filter (fun s => s ≠ "time")
        let pairs := selected.filterMap (fun s =>
          (lookupSignal d.data s).bind (fun sd =>
            if ¬sd.isEmpty ∧ max primaryIdx diffIdx < sd.length then
              some (s, sd.getD primaryIdx 0, sd.getD diffIdx 0)
            else none))
        let timeDiff := diffX - primaryX
        if pairs.any (fun p => p.2.1 = 0) then none
        else
          some (.comparisonResult timeDiff (pairs.map (fun p =>
            { signal := p.1, primaryVal := p.2.1, diffVal := p.2.2,
              delta := p.2.2 - p.2.1,
              percentChange := (p.2.2 - p.2.1) / p.2.1 * 100,
              rate := if timeDiff ≠ 0 then (p.2.2 - p.2.1) / timeDiff else 0 })))
  | _, _ => some .bothCursorsNeeded

/-- The tail of `QueryProcessor._process_time_query` once the closest index
`i` is known: all-signal values at `i`, or the value of the first named
signal. -/
def timeAnswerAt (query : String) (d : Dataset) (i : ℕ) (ts : List ℚ) : Answer :=
  match extractSignals query d with
  | [] =>
    let results := (d.data.map Prod.fst).filterMap (fun s =>
      if s ≠ "time" then
        (lookupSignal d.data s).bind (fun sd =>
          if i < sd.length then some (s, sd.getD i 0) else none)
      else none)
    if results.isEmpty then .timeNoSignalData
    else .timeValuesAll (ts.getD i 0) results
  | s :: _ =>
    match lookupSignal d.data s with
    | some sd =>
      if i < sd.length then .timeValueSingle s (sd.getD i 0) (ts.getD i 0)
      else .timeSignalNotFound s
    | none => .timeSignalNotFound s

/-- `QueryProcessor._process_time_query`. -/
def processTimeQuery (query : String) (d : Dataset) (m : TimeMatch) : Answer :=
  match lookupSignal d.data "time" with
  | none => .timeNoTimeData
  | some ts =>
    if ts.isEmpty then .timeNoTimeData
    else
      let idx := find_closest_time_index ts (timeSeconds m)
      if idx = -1 then .timePointNotFound
      else timeAnswerAt query d idx.toNat ts

/-- The non-context part of `QueryProcessor.process_query`: time-expression
match, then keyword classification and the per-type handlers, ending in the
generic guidance fallback. -/
def restOfDispatch (q : String) (d : Dataset) (context : Option QueryContext) :
    Answer :=
  match timeRegexSearch q.toList with
  | some m => processTimeQuery q d m
  | none =>
    let qtype := determineQueryType q
    let signals :=
      match context with
      | some ctx =>
        if ¬ctx.selectedSignals.isEmpty then ctx.selectedSignals else extractSignals q d
      | none => extractSignals q d
    if qtype = "max" then processMaxQuery d signals
    else if qtype = "min" then processMinQuery d signals
    else if qtype = "avg" then processAvgQuery d signals
    else if qtype = "correlation" then processCorrelationQuery d signals
    else if qtype = "anomaly" then processAnomalyQuery d signals
    else if qtype = "summary" then processSummaryQuery d
    else .genericFallback

/-- `QueryProcessor.process_query`: lowercase the query; with a context,
cursor-vocabulary queries go to the cursor handler and comparison-vocabulary
queries go to the comparison handler only when both cursors are set;
everything else falls through to `restOfDispatch`.  `none` models an
uncaught Python exception. -/
def process_query (query : String) (d : Dataset) (context : Option QueryContext) :
    Option Answer :=
  let q := strToLower query
  match context with
  | some ctx =>
    if isCursorQuery q then some (processCursorQuery d ctx)
    else if isComparisonQuery q ∧ ctx.primaryCursor.isSome ∧ ctx.diffCursor.isSome then
      processComparisonQuery d ctx
    else some (restOfDispatch q d (some ctx))
  | none => some (restOfDispatch q d none)

lemma zipWith_take_min_length (f : ℚ → ℚ → ℚ) (d1 d2 : List ℚ) :
    (List.zipWith f (d1.take (min d1.length d2.length))
      (d2.take (min d1.length d2.length))).length = min d1.length d2.length := by
  simp [List.length_zipWith, List.length_take]

lemma divEps_pos : (0 : ℚ) < divEps := by norm_num [divEps]

/-- C3: for every valid binary operation (add, subtract, multiply, divide)
over two signals present in the dataset, the returned data has length
`min (len signal1) (len signal2)`: both inputs are truncated to the shorter
length before the element-wise operation. -/
theorem binary_ops_result_length_min (sd : SignalsData) (s1 s2 : String)
    (d1 d2 : List ℚ) (h1 : lookupSignal sd s1 = some d1) (h2 : lookupSignal sd s2 = some d2) :
    (∃ r, add_signals sd (some s1) (some s2) = .ok r ∧ r.length = min d1.length d2.length) ∧
    (∃ r, subtract_signals sd (some s1) (some s2) = .ok r ∧ r.length = min d1.length d2.length) ∧
    (∃ r, multiply_signals sd (some s1) (some s2) = .ok r ∧ r.length = min d1.length d2.length) ∧
    (∃ r, divide_signals sd (some s1) (some s2) = .ok r ∧ r.length = min d1.length d2.length) := by
  refine ⟨?_, ?_, ?_, ?_⟩
  · simp only [add_signals, h1, h2]
    exact ⟨_, rfl, zipWith_take_min_length _ d1 d2⟩
  · simp only [subtract_signals, h1, h2]
    exact ⟨_, rfl, zipWith_take_min_length _ d1 d2⟩
  · simp only [multiply_signals, h1, h2]
    exact ⟨_, rfl, zipWith_take_min_length _ d1 d2⟩
  · simp only [divide_signals, h1, h2]
    refine ⟨_, rfl, ?_⟩
    simp [List.length_zipWith, List.length_take]

/-- C3 witness. -/
theorem binary_ops_result_length_min_witness :
    (∃ r, add_signals [("a", [1, 2, 3]), ("b", [4, 5])] (some "a") (some "b") = .ok r ∧
      r.length = min ([1, 2, 3] : List ℚ).length ([4, 5] : List ℚ).length) ∧
    (∃ r, subtract_signals [("a", [1, 2, 3]), ("b", [4, 5])] (some "a") (some "b") = .ok r ∧
      r.length = min ([1, 2, 3] : List ℚ).length ([4, 5] : List ℚ).length) ∧
    (∃ r, multiply_signals [("a", [1, 2, 3]), ("b", [4, 5])] (some "a") (some "b") = .ok r ∧
      r.length = min ([1, 2, 3] : List ℚ).length ([4, 5] : List ℚ).length) ∧
    (∃ r, divide_signals [("a", [1, 2, 3]), ("b", [4, 5])] (some "a") (some "b") = .ok r ∧
      r.length = min ([1, 2, 3] : List ℚ).length ([4, 5] : List ℚ).length) :=
  binary_ops_result_length_min [("a", [1, 2, 3]), ("b", [4, 5])] "a" "b"
    [1, 2, 3] [4, 5] (by simp [lookupSignal]) (by simp [lookupSignal])

/-- C2: for every pair of signals present in the dataset, `divide(a, b)`
succeeds and its sample at every index `i` is exactly
`data1[i] / (if |data2[i]| < 1e-10 then 1e-10 else data2[i])` — the actual
denominator sample, clamped to `1e-10` whenever its magnitude is below
`1e-10` — and that effective denominator always has magnitude at least
`1e-10`, so the element-wise division can produce neither `NaN` nor `Inf`,
even when `b` contains zeros. -/
theorem divide_denominators_guarded (sd : SignalsData) (s1 s2 : String)
    (d1 d2 : List ℚ) (h1 : lookupSignal sd s1 = some d1) (h2 : lookupSignal sd s2 = some d2) :
    ∃ r, divide_signals sd (some s1) (some s2) = .ok r ∧
      r.length = min d1.length d2.length ∧
      ∀ i, i < r.length →
        divEps ≤ |if |d2.getD i 0| < divEps then divEps else d2.getD i 0| ∧
        r.getD i 0 = d1.getD i 0 / (if |d2.getD i 0| < divEps then divEps else d2.getD i 0) := by
  simp only [divide_signals, h1, h2]
  refine ⟨_, rfl, ?_, ?_⟩
  · simp [List.length_zipWith, List.length_take]
  · intro i hi
    have hm : i < min d1.length d2.length := by
      simpa [List.length_zipWith, List.length_take] using hi
    have hi1 : i < d1.length := lt_of_lt_of_le hm (min_le_left _ _)
    have hi2 : i < d2.length := lt_of_lt_of_le hm (min_le_right _ _)
    constructor
    · by_cases hc : |d2.getD i 0| < divEps
      · rw [if_pos hc, abs_of_pos divEps_pos]
      · rw [if_neg hc]
        exact not_lt.1 hc
    · have hri : i < (List.zipWith (· / ·) (d1.take (min d1.length d2.length))
          ((d2.take (min d1.length d2.length)).map
            (fun x => if |x| < divEps then divEps else x))).length := by
        simp [List.length_zipWith, List.length_take]
        omega
      rw [List.getD_eq_getElem?_getD, List.getElem?_eq_getElem hri]
      rw [List.getD_eq_getElem?_getD d1, List.getElem?_eq_getElem hi1]
      rw [List.getD_eq_getElem?_getD d2, List.getElem?_eq_getElem hi2]
      simp [List.getElem_zipWith, List.getElem_map, List.getElem_take]

/-- C2 witness (the denominator signal contains a zero). -/
theorem divide_denominators_guarded_witness :
    ∃ r, divide_signals [("a", [1, 2]), ("b", [0, 4])] (some "a") (some "b") = .ok r ∧
      r.length = min ([1, 2] : List ℚ).length ([0, 4] : List ℚ).length ∧
      ∀ i, i < r.length →
        divEps ≤ |if |([0, 4] : List ℚ).getD i 0| < divEps then divEps
          else ([0, 4] : List ℚ).getD i 0| ∧
        r.getD i 0 = ([1, 2] : List ℚ).getD i 0 /
          (if |([0, 4] : List ℚ).getD i 0| < divEps then divEps
           else ([0, 4] : List ℚ).getD i 0) :=
  divide_denominators_guarded [("a", [1, 2]), ("b", [0, 4])] "a" "b"
    [1, 2] [0, 4] (by simp [lookupSignal]) (by simp [lookupSignal])

lemma npGradientTotal_length (l : List ℚ) : (npGradientTotal l).length = l.length := by
  simp [npGradientTotal]

lemma lookupSignal_single (name : String) (d : List ℚ) :
    lookupSignal [(name, d)] name = some d := by
  simp [lookupSignal]

/-- C4: for every signal present in the dataset, `derivative` with `order=2`
produces exactly the result of applying `derivative` with `order=1` to the
result of `derivative` with `order=1` (second derivative = gradient of the
gradient), error cases included. -/
theorem derivative_order_two_is_iterated_first (sd : SignalsData) (name : String)
    (data : List ℚ) (h : lookupSignal sd name = some data) :
    compute_derivative sd (some name) 2 =
      (compute_derivative sd (some name) 1).bind
        (fun g => compute_derivative [(name, g)] (some name) 1) := by
  simp only [compute_derivative, h]
  norm_num
  cases hg : npGradient data with
  | none =>
    simp only [hg]
    rfl
  | some g =>
    have hlen : ¬ data.length < 2 := by
      by_contra hcon
      simp [npGradient, hcon] at hg
    have hgeq : g = npGradientTotal data := by
      simp [npGradient, hlen] at hg
      exact hg.symm
    have hglen : ¬ g.length < 2 := by
      rw [hgeq, npGradientTotal_length]
      exact hlen
    have hg2 : npGradient g = some (npGradientTotal g) := by
      simp [npGradient, hglen]
    simp [hg, hg2, Except.bind, lookupSignal_single]

/-- C4 witness. -/
theorem derivative_order_two_is_iterated_first_witness :
    compute_derivative [("x", [1, 4, 9, 16])] (some "x") 2 =
      (compute_derivative [("x", [1, 4, 9, 16])] (some "x") 1).bind
        (fun g => compute_derivative [("x", g)] (some "x") 1) :=
  derivative_order_two_is_iterated_first [("x", [1, 4, 9, 16])] "x" [1, 4, 9, 16]
    (by simp [lookupSignal])

/-- C10: for every signal present in the dataset, the scale operation with
its default factor `1.0` returns the input signal's samples unchanged. -/
theorem scale_default_factor_is_identity (sd : SignalsData) (s : String) (data : List ℚ)
    (h : lookupSignal sd s = some data) :
    scale_signal sd (some s) = .ok data := by
  simp [scale_signal, h]

/-- C10 witness. -/
theorem scale_default_factor_is_identity_witness :
    scale_signal [("a", [3, -1, 7])] (some "a") = .ok [3, -1, 7] :=
  scale_default_factor_is_identity [("a", [3, -1, 7])] "a" [3, -1, 7]
    (by simp [lookupSignal])

/-- C8: a derivative request whose order parameter is neither 1 nor 2 (for
example 3) fails validation with the `Derivative order must be 1 or 2` error,
and the pipeline returns that error for every dataset whatsoever — the
operation catalog never executes any numeric work on the signal. -/
theorem derivative_invalid_order_rejected_before_execution (op : SignalOperation)
    (availableSignals : List String) (o : ℤ)
    (hop : op.operation = "derivative")
    (ho : op.parameters.order = some o) (h1 : o ≠ 1) (h2 : o ≠ 2)
    (hsig : op.signals.all (fun s => availableSignals.contains s) = true)
    (harity : op.signals.length = 1) :
    ∀ sd : SignalsData, validateThenExecute op availableSignals sd =
      .error ("Derivative order must be 1 or 2, got " ++ toString o) := by
  intro sd
  have hfind : op.signals.find? (fun s => !(availableSignals.contains s)) = none := by
    rw [List.find?_eq_none]
    intro x hx
    have hcx := List.all_eq_true.1 hsig x hx
    simp at hcx
    simp [hcx]
  unfold validateThenExecute validate_operation
  rw [hop]
  simp only [validOperations, hfind]
  norm_num [harity, ho, h1, h2]
  rw [if_neg (by decide)]
  rfl

/-- C8 witness: `derivative` with `order=3`. -/
theorem derivative_invalid_order_rejected_witness :
    validateThenExecute
      { operation := "derivative", signals := ["sig"],
        parameters := { order := some 3, filter_type := none, cutoff_freq := none, factor := none } }
      ["sig"] [] =
      .error ("Derivative order must be 1 or 2, got " ++ toString (3 : ℤ)) :=
  derivative_invalid_order_rejected_before_execution
    { operation := "derivative", signals := ["sig"],
      parameters := { order := some 3, filter_type := none, cutoff_freq := none, factor := none } }
    ["sig"] 3 rfl rfl (by decide) (by decide) (by decide) rfl []

/-- C1: a filter request with filter_type bandpass or bandstop whose
cutoff_freq is not a 2-element list (missing, a plain number, or a list of
another length) is not rejected: validation repairs the cutoff to
`[0.1, 0.4]` and execution proceeds, reaching the Butterworth design with
the normalized cutoff `[0.2, 0.8] = [0.1, 0.4] / nyquist`. -/
theorem filter_band_cutoff_auto_repaired (op : SignalOperation)
    (availableSignals : List String) (sd : SignalsData) (name : String) (data : List ℚ)
    (hop : op.operation = "filter") (hsig : op.signals = [name])
    (hav : availableSignals.contains name = true)
    (hlk : lookupSignal sd name = some data)
    (hft : op.parameters.filter_type = some "bandpass" ∨
           op.parameters.filter_type = some "bandstop")
    (hco : isPairCutoff op.parameters.cutoff_freq = false) :
    ∃ op2, validate_operation op availableSignals = .ok op2 ∧
      op2.parameters.cutoff_freq = some (.numList [1/10, 2/5]) ∧
      validateThenExecute op availableSignals sd = .ok [1/5, 4/5] := by
  have hmem : name ∈ availableSignals := by simpa using hav
  have hrepair : validate_operation op availableSignals = .ok
      { op with parameters :=
        { op.parameters with cutoff_freq := some (.numList [1/10, 2/5]) } } := by
    unfold validate_operation
    rw [hop, hsig]
    rcases hft with hft | hft <;>
    · simp only [validOperations, validFilterTypes, hft]
      norm_num
      match hcf : op.parameters.cutoff_freq with
      | none => simp [hmem]
      | some (.num q) => simp [hmem]
      | some (.numList qs) =>
        have hq : ¬ qs.length = 2 := by
          rw [hcf] at hco
          simpa [isPairCutoff] using hco
        simp [hmem, hq]
  refine ⟨_, hrepair, rfl, ?_⟩
  unfold validateThenExecute
  rw [hrepair]
  show executeOperation _ sd = _
  unfold executeOperation
  rcases hft with hft | hft <;>
  · simp only [hop, hsig, hft]
    norm_num [filter_signal, hlk, validFilterTypes]
    rw [if_neg (by decide), if_neg (by decide), if_neg (by decide), if_neg (by decide),
      if_neg (by decide), if_neg (by decide), if_neg (by decide)]

/-- C1 witness: bandpass with a 1-element cutoff list. -/
theorem filter_band_cutoff_auto_repaired_witness :
    ∃ op2, validate_operation
      { operation := "filter", signals := ["sig"],
        parameters := { order := none, filter_type := some "bandpass",
                        cutoff_freq := some (.numList [1/10]), factor := none } }
      ["sig"] = .ok op2 ∧
      op2.parameters.cutoff_freq = some (.numList [1/10, 2/5]) ∧
      validateThenExecute
        { operation := "filter", signals := ["sig"],
          parameters := { order := none, filter_type := some "bandpass",
                          cutoff_freq := some (.numList [1/10]), factor := none } }
        ["sig"] [("sig", [1, 2])] = .ok [1/5, 4/5] :=
  filter_band_cutoff_auto_repaired _ ["sig"] [("sig", [1, 2])] "sig" [1, 2]
    rfl rfl (by decide) (by simp [lookupSignal]) (Or.inl rfl) (by decide)

lemma corrGT_true_of (num densq c : ℚ) (hc : 0 ≤ c) (h1 : 0 < num)
    (h2 : c ^ 2 * densq < num ^ 2) : corrGT num densq c = true := by
  simp [corrGT, hc]
  exact ⟨h1, h2⟩

lemma corrGT_pos_false (num densq c : ℚ) (hc : 0 ≤ c) (hnum : num ≤ 0) :
    corrGT num densq c = false := by
  simp [corrGT, hc]
  intro h
  exact absurd h (not_lt.2 hnum)

lemma corrGT_neg_false (num densq c : ℚ) (hc : c < 0) (hnum : num < 0)
    (h : c ^ 2 * densq ≤ num ^ 2) : corrGT num densq c = false := by
  simp [corrGT, not_le.2 hc]
  exact ⟨hnum, h⟩

/-- C5 (amended): the correlation answer buckets the Pearson coefficient of
the first two matched signals into seven strength bands with strict
thresholds: a coefficient strictly greater than 0.8 is phrased
"strong positive" (at exactly 0.8 the phrasing is "moderate positive"),
a coefficient at most -0.8 is phrased "strong negative", and correlating two
identical signals of nonzero variance (coefficient exactly 1) yields
"strong positive".  Stated via `corrGT`'s square form: `r > 4/5` is
`0 < num ∧ 16·densq < 25·num²`, `r ≤ -4/5` is `num ≤ 0 ∧ 16·densq ≤ 25·num²`
for positive `densq`. -/
theorem correlation_strength_strict_bands :
    (∀ x y : List ℚ, 0 < pearsonNum x y →
        16 * pearsonDenSq x y < 25 * pearsonNum x y ^ 2 →
        correlationStrength x y = "strong positive") ∧
    (∀ x y : List ℚ, 0 < pearsonDenSq x y → pearsonNum x y ≤ 0 →
        16 * pearsonDenSq x y ≤ 25 * pearsonNum x y ^ 2 →
        correlationStrength x y = "strong negative") ∧
    (∀ x : List ℚ, 0 < pearsonNum x x → correlationStrength x x = "strong positive") := by
  have hpos : ∀ x y : List ℚ, 0 < pearsonNum x y →
      16 * pearsonDenSq x y < 25 * pearsonNum x y ^ 2 →
      correlationStrength x y = "strong positive" := by
    intro x y hnum hd
    simp only [correlationStrength]
    rw [corrGT_true_of (pearsonNum x y) (pearsonDenSq x y) (4/5) (by norm_num) hnum
      (by nlinarith)]
    simp
  refine ⟨hpos, ?_, ?_⟩
  · intro x y hdensq hnum hd
    have hnumneg : pearsonNum x y < 0 := by
      rcases lt_or_eq_of_le hnum with h | h
      · exact h
      · exfalso
        rw [h] at hd
        norm_num at hd
        linarith
    simp only [correlationStrength]
    rw [corrGT_pos_false (pearsonNum x y) (pearsonDenSq x y) (4/5) (by norm_num) hnum,
      corrGT_pos_false (pearsonNum x y) (pearsonDenSq x y) (1/2) (by norm_num) hnum,
      corrGT_pos_false (pearsonNum x y) (pearsonDenSq x y) (1/5) (by norm_num) hnum,
      corrGT_neg_false (pearsonNum x y) (pearsonDenSq x y) (-(1/5)) (by norm_num) hnumneg
        (by nlinarith),
      corrGT_neg_false (pearsonNum x y) (pearsonDenSq x y) (-(1/2)) (by norm_num) hnumneg
        (by nlinarith),
      corrGT_neg_false (pearsonNum x y) (pearsonDenSq x y) (-(4/5)) (by norm_num) hnumneg
        (by nlinarith)]
    simp
  · intro x hnum
    refine hpos x x hnum ?_
    have hsq : pearsonDenSq x x = pearsonNum x x * pearsonNum x x := rfl
    nlinarith

/-- C5 counterexample: signals with Pearson coefficient exactly 0.8
(`num = 16`, `densq = 400`, so `r = 16/√400 = 0.8 ≥ 0.8`): the source's
strict `correlation > 0.8` fails and the answer is phrased
"moderate positive", not "strong positive" as the claim's `≥ 0.8` demands. -/
theorem correlation_exact_point_eight_counterexample :
    pearsonNum [1, -1, 1, -1] [7, -1, 1, -7] = 16 ∧
    pearsonDenSq [1, -1, 1, -1] [7, -1, 1, -7] = 400 ∧
    25 * (16 : ℚ) ^ 2 = 16 * 400 ∧
    correlationStrength [1, -1, 1, -1] [7, -1, 1, -7] = "moderate positive" := by
  refine ⟨?_, ?_, by norm_num, ?_⟩
  · norm_num [pearsonNum, dotQ, centered, meanQ]
  · norm_num [pearsonDenSq, dotQ, centered, meanQ]
  · norm_num [correlationStrength, corrGT, pearsonNum, pearsonDenSq, dotQ, centered, meanQ]

/-- C5 witness: two identical signals with nonzero variance. -/
theorem correlation_strength_strict_bands_witness :
    correlationStrength [0, 2] [0, 2] = "strong positive" :=
  correlation_strength_strict_bands.2.2 [0, 2]
    (by norm_num [pearsonNum, dotQ, centered, meanQ])

lemma processCursorQuery_not_comparison (d : Dataset) (ctx : QueryContext) :
    isComparisonResultAnswer (processCursorQuery d ctx) = false := by
  unfold processCursorQuery
  repeat' split <;> try rfl

lemma timeAnswerAt_not_comparison (q : String) (d : Dataset) (i : ℕ) (ts : List ℚ) :
    isComparisonResultAnswer (timeAnswerAt q d i ts) = false := by
  unfold timeAnswerAt
  dsimp only
  repeat' split <;> try rfl

lemma processTimeQuery_not_comparison (q : String) (d : Dataset) (m : TimeMatch) :
    isComparisonResultAnswer (processTimeQuery q d m) = false := by
  unfold processTimeQuery
  dsimp only
  repeat' split <;> try rfl
  all_goals apply timeAnswerAt_not_comparison

lemma restOfDispatch_not_comparison (q : String) (d : Dataset) (c : Option QueryContext) :
    isComparisonResultAnswer (restOfDispatch q d c) = false := by
  unfold restOfDispatch
  split
  · apply processTimeQuery_not_comparison
  · unfold processMaxQuery processMinQuery processAvgQuery processCorrelationQuery
      processAnomalyQuery processSummaryQuery
    dsimp only
    repeat' split <;> try rfl

/-- C6 (amended): when `diffCursor` is absent from the context, the engine
never computes the cursor-to-cursor comparison — no query can produce a
comparison result — but the answer returned for a plain compare-vocabulary
query is the generic unknown-query guidance fallback, not the
"both cursors need to be active" message, which is unreachable in this
situation (its handler is only entered when both cursors are set). -/
theorem comparison_never_computed_without_diff_cursor :
    (∀ (q : String) (d : Dataset) (ctx : QueryContext), ctx.diffCursor = none →
      ∀ a, process_query q d (some ctx) = some a → isComparisonResultAnswer a = false) ∧
    process_query "compare" { data := [("time", [0, 1]), ("a", [1, 2])], signals := ["time", "a"] }
      (some { primaryCursor := some 0, diffCursor := none, selectedSignals := [] }) =
      some .genericFallback := by
  constructor
  · intro q d ctx hdiff a h
    unfold process_query at h
    dsimp only at h
    split at h
    · cases h
      apply processCursorQuery_not_comparison
    · split at h
      · rename_i hcond
        rw [hdiff] at hcond
        simp at hcond
      · cases h
        apply restOfDispatch_not_comparison
  · decide

/-- C6 witness. -/
theorem comparison_never_computed_without_diff_cursor_witness :
    isComparisonResultAnswer Answer.genericFallback = false :=
  comparison_never_computed_without_diff_cursor.1 "compare"
    { data := [("time", [0, 1]), ("a", [1, 2])], signals := ["time", "a"] }
    { primaryCursor := some 0, diffCursor := none, selectedSignals := [] }
    rfl Answer.genericFallback comparison_never_computed_without_diff_cursor.2

/-- C6 counterexample: a compare query with only the primary cursor set
receives the generic guidance fallback, not the "both cursors need to be
active" answer the claim asserts. -/
theorem compare_without_diff_cursor_fallback_counterexample :
    process_query "compare" { data := [("time", [0, 1]), ("a", [1, 2])], signals := ["time", "a"] }
      (some { primaryCursor := some 0, diffCursor := none, selectedSignals := [] }) =
      some .genericFallback ∧
    process_query "compare" { data := [("time", [0, 1]), ("a", [1, 2])], signals := ["time", "a"] }
      (some { primaryCursor := some 0, diffCursor := none, selectedSignals := [] }) ≠
      some .bothCursorsNeeded := by
  constructor
  · decide
  · decide

/-- C7 (code evaluation at the failing input): with both cursors active and
a selected signal whose value at the primary-cursor index is `0`, the
cursor comparison performs the unguarded percent-change division
`diff/primary_val*100` and raises `ZeroDivisionError` (modelled as `none`)
instead of returning an answer — the guard the claim requires is absent. -/
theorem percent_change_unguarded_division_crash :
    process_query "compare" { data := [("time", [0, 1]), ("a", [0, 5])], signals := ["time", "a"] }
      (some { primaryCursor := some 0, diffCursor := some 1, selectedSignals := [] }) = none := by
  have hfc0 : find_closest_time_index [0, 1] 0 = 0 := by
    norm_num [find_closest_time_index, findClosestAux]
  have hfc1 : find_closest_time_index [0, 1] 1 = 1 := by
    norm_num [find_closest_time_index, findClosestAux]
  unfold process_query
  dsimp only
  rw [if_neg (by decide)]
  rw [if_pos (by decide)]
  unfold processComparisonQuery
  dsimp only
  simp [lookupSignal, hfc0, hfc1]

lemma findClosestAux_spec (x : ℚ) (T : List ℚ) :
    ∀ (rest : List ℚ) (i b : ℕ) (bd : ℚ),
      i ≤ T.length → rest = T.drop i → b < i →
      bd = |T.getD b 0 - x| →
      (∀ j, j < i → bd ≤ |T.getD j 0 - x|) →
      (∀ j, j < b → bd < |T.getD j 0 - x|) →
      findClosestAux x rest i b bd < T.length ∧
      (∀ j, j < T.length →
        |T.getD (findClosestAux x rest i b bd) 0 - x| ≤ |T.getD j 0 - x|) ∧
      (∀ j, j < findClosestAux x rest i b bd →
        |T.getD (findClosestAux x rest i b bd) 0 - x| < |T.getD j 0 - x|) := by
  intro rest
  induction rest with
  | nil =>
    intro i b bd hi hdrop hb hbd hmin hstrict
    have hlen : T.length ≤ i := by
      have hld := congrArg List.length hdrop
      simp [List.length_drop] at hld
      omega
    have hieq : i = T.length := le_antisymm hi hlen
    unfold findClosestAux
    refine ⟨by omega, ?_, ?_⟩
    · intro j hj
      rw [← hbd]
      exact hmin j (by omega)
    · intro j hj
      rw [← hbd]
      exact hstrict j hj
  | cons t rest' ih =>
    intro i b bd hi hdrop hb hbd hmin hstrict
    have hilt : i < T.length := by
      have hld := congrArg List.length hdrop
      simp [List.length_drop] at hld
      omega
    have hcons : T.drop i = T.get ⟨i, hilt⟩ :: T.drop (i + 1) := by
      rw [List.drop_eq_getElem_cons hilt]
      rfl
    rw [hcons] at hdrop
    injection hdrop with h1 h2
    have hti : t = T.getD i 0 := by
      rw [List.getD_eq_getElem?_getD, List.getElem?_eq_getElem hilt]
      simp only [Option.getD_some]
      exact h1
    have hdrop' : rest' = T.drop (i + 1) := h2
    unfold findClosestAux
    by_cases hc : |t - x| < bd
    · rw [if_pos hc]
      apply ih (i + 1) i |t - x| (by omega) hdrop' (by omega) (by rw [hti])
      · intro j hj
        rcases Nat.lt_or_ge j i with hji | hji
        · exact le_of_lt (lt_of_lt_of_le hc (hmin j hji))
        · have hje : j = i := by omega
          rw [hje, ← hti]
      · intro j hj
        exact lt_of_lt_of_le hc (hmin j hj)
    · rw [if_neg hc]
      apply ih (i + 1) b bd (by omega) hdrop' (by omega) hbd
      · intro j hj
        rcases Nat.lt_or_ge j i with hji | hji
        · exact hmin j hji
        · have hje : j = i := by omega
          rw [hje, ← hti]
          exact not_lt.1 hc
      · exact hstrict

lemma find_closest_time_index_spec (ts : List ℚ) (x : ℚ) (hne : ts ≠ []) :
    ∃ i : ℕ, find_closest_time_index ts x = (i : ℤ) ∧ i < ts.length ∧
      (∀ j, j < ts.length → |ts.getD i 0 - x| ≤ |ts.getD j 0 - x|) ∧
      (∀ j, j < i → |ts.getD i 0 - x| < |ts.getD j 0 - x|) := by
  match ts, hne with
  | t0 :: rest, _ =>
    obtain ⟨h1, h2, h3⟩ := findClosestAux_spec x (t0 :: rest) rest 1 0 |t0 - x|
      (by simp) (by simp) (by omega) (by rfl)
      (by
        intro j hj
        have hj0 : j = 0 := by omega
        rw [hj0]
        exact le_rfl)
      (by
        intro j hj
        omega)
    exact ⟨findClosestAux x rest 1 0 |t0 - x|, rfl, h1, h2, h3⟩

/-- C9: for every query whose (lowercased) text matches the time-expression
regex, with a nonempty time axis in the dataset, the engine resolves the
requested time to a sample index by linear scan — the chosen index is a
global minimizer of the absolute difference to the requested time and is
strictly better than every earlier index (first-encountered minimum wins) —
and answers directly from that index via `timeAnswerAt`, which restricts to
the first named signal when `extractSignals` finds one and otherwise reports
every non-time signal's value there. -/
theorem time_query_answers_at_first_nearest_index (query : String) (d : Dataset)
    (m : TimeMatch) (ts : List ℚ)
    (hm : timeRegexSearch (strToLower query).toList = some m)
    (ht : lookupSignal d.data "time" = some ts) (hne : ts ≠ []) :
    ∃ i : ℕ, find_closest_time_index ts (timeSeconds m) = (i : ℤ) ∧ i < ts.length ∧
      (∀ j, j < ts.length →
        |ts.getD i 0 - timeSeconds m| ≤ |ts.getD j 0 - timeSeconds m|) ∧
      (∀ j, j < i → |ts.getD i 0 - timeSeconds m| < |ts.getD j 0 - timeSeconds m|) ∧
      process_query query d none = some (timeAnswerAt (strToLower query) d i ts) := by
  obtain ⟨i, hfc, hilt, hmin, hstrict⟩ := find_closest_time_index_spec ts (timeSeconds m) hne
  refine ⟨i, hfc, hilt, hmin, hstrict, ?_⟩
  unfold process_query
  dsimp only
  unfold restOfDispatch
  rw [hm]
  dsimp only
  unfold processTimeQuery
  rw [ht]
  dsimp only
  have hempty : ts.isEmpty = false := by
    cases ts with
    | nil => exact absurd rfl hne
    | cons a l => rfl
  rw [hempty]
  rw [hfc]
  rw [if_neg (show ¬((i : ℤ) = -1) by omega)]
  simp

/-- C9 witness: query "at 2 s" over time axis `[0, 1, 3]` (both 1 and 3 are
at distance 1 from 2; the scan keeps the first). -/
theorem time_query_answers_at_first_nearest_index_witness :
    ∃ i : ℕ, find_closest_time_index [0, 1, 3]
        (timeSeconds { intPart := ['2'], fracPart := none, unit := some "s" }) = (i : ℤ) ∧
      i < ([0, 1, 3] : List ℚ).length ∧
      (∀ j, j < ([0, 1, 3] : List ℚ).length →
        |([0, 1, 3] : List ℚ).getD i 0 -
            timeSeconds { intPart := ['2'], fracPart := none, unit := some "s" }| ≤
          |([0, 1, 3] : List ℚ).getD j 0 -
            timeSeconds { intPart := ['2'], fracPart := none, unit := some "s" }|) ∧
      (∀ j, j < i →
        |([0, 1, 3] : List ℚ).getD i 0 -
            timeSeconds { intPart := ['2'], fracPart := none, unit := some "s" }| <
          |([0, 1, 3] : List ℚ).getD j 0 -
            timeSeconds { intPart := ['2'], fracPart := none, unit := some "s" }|) ∧
      process_query "at 2 s"
        { data := [("time", [0, 1, 3]), ("a", [5, 6, 7])], signals := ["time", "a"] } none =
        some (timeAnswerAt (strToLower "at 2 s")
          { data := [("time", [0, 1, 3]), ("a", [5, 6, 7])], signals := ["time", "a"] }
          i [0, 1, 3]) :=
  time_query_answers_at_first_nearest_index "at 2 s"
    { data := [("time", [0, 1, 3]), ("a", [5, 6, 7])], signals := ["time", "a"] }
    { intPart := ['2'], fracPart := none, unit := some "s" } [0, 1, 3]
    (by decide) (by decide) (by decide)
